import Mathlib

/-!
Verification of the k6 execution core slice.

Shallow embedding of the parts of the repository that the checked claims
concern:

* `js/eventloop.go` (`eventLoop`: `RunOnLoop`, `Reserve`, `Start`),
* `lib/execution.go` (`ExecutionState`: counters, pause/resume,
  `GetCurrentTestRunDuration`, `MarkStarted`/`MarkEnded`,
  `GetPlannedVU`, `GetUnplannedVU`),
* `lib/state.go` (`TagMap` and `Clone`),
* `cloudapi/config.go` (`Config`, `Apply`, `MergeFromExternal`,
  `GetConsolidatedConfig`).

The concurrency of the Go source is embedded by explicit state passing: the event loop is a
fuel-indexed drain function over a task language, channel waits are resolved
by delivering the next outstanding completion, and panics/errors are values.
-/

namespace K6

/-! ## Event loop (js/eventloop.go)

Tasks are drawn from a small language sufficient for the claims: a plain
task, a task that calls `RunOnLoop` on further tasks, a task that calls
`Reserve()` and hands the returned `complete` to an asynchronous completer,
and a task that cancels the driving context. Each task carries a label so
that execution order is observable. -/

inductive LTask where
  /-- a task that only runs (its body has no loop effect) -/
  | simple (id : Nat) : LTask
  /-- a task that calls RunOnLoop on each of `ts`, in order -/
  | enqueue (id : Nat) (ts : List LTask) : LTask
  /-- a task that calls Reserve() and gives `complete` to an async
  completer that will later fire with task `t` -/
  | reserve (id : Nat) (t : LTask) : LTask
  /-- a task that cancels the driving context -/
  | cancelCtx (id : Nat) : LTask

/-- The state of one `eventLoop` together with its environment: `queue` and
`reservedCount` are the struct fields; `pending` holds the tasks of
outstanding completers (one entry per un-fired `complete`); `executed` logs
the labels of run tasks in order; `cancelled` models `ctx.Done()`. -/
structure LoopState where
  queue : List LTask
  reservedCount : Nat
  pending : List LTask
  executed : List Nat
  cancelled : Bool

/-- Effect of running one task `f()` from the drained batch. `RunOnLoop`
appends to `queue`; `Reserve` increments `reservedCount` and registers the
task of the completer as pending. -/
def runTask (s : LoopState) : LTask → LoopState
  | LTask.simple id => { s with executed := s.executed ++ [id] }
  | LTask.enqueue id ts =>
      { s with queue := s.queue ++ ts, executed := s.executed ++ [id] }
  | LTask.reserve id t =>
      { s with reservedCount := s.reservedCount + 1,
               pending := s.pending ++ [t],
               executed := s.executed ++ [id] }
  | LTask.cancelCtx id =>
      { s with cancelled := true, executed := s.executed ++ [id] }

/-- The `for _, f := range queue` body of `Start`: run each snapshot task in
FIFO order, rechecking `ctx` before each one. -/
def runQueue (s : LoopState) : List LTask → LoopState
  | [] => s
  | t :: ts => if s.cancelled then s else runQueue (runTask s t) ts

/-- `eventLoop.Start`, with a fuel bound on the number of drain cycles.
Each cycle: check `ctx`; swap the queue for an empty one; if the snapshot is
empty return when `reservedCount == 0`, otherwise wait on `wakeupCh` (here:
deliver the next outstanding completion, which appends its task and
decrements `reservedCount`; `none` models blocking forever when no completer
will ever fire); if the snapshot is non-empty run it and loop. -/
def startLoop : Nat → LoopState → Option LoopState
  | 0, _ => none
  | Nat.succ fuel, s =>
    if s.cancelled then some s
    else
      let q := s.queue
      let s1 : LoopState := { s with queue := [] }
      match q with
      | [] =>
        if s1.reservedCount = 0 then some s1
        else
          match s1.pending with
          | [] => none
          | t :: rest =>
              startLoop fuel
                { s1 with queue := [t], reservedCount := s1.reservedCount - 1,
                          pending := rest }
      | _ :: _ => startLoop fuel (runQueue s1 q)

/-- Initial loop state for a batch enqueued before `Start` (the
`newEventLoop` state after some `RunOnLoop` calls). -/
def initLoop (q : List LTask) : LoopState :=
  { queue := q, reservedCount := 0, pending := [], executed := [],
    cancelled := false }

/-! ## ExecutionState (lib/execution.go)

Timestamps are `time.Now().UnixNano()` values, embedded as `Int`; Go
durations are `Int` nanoseconds. Atomics become plain state fields (every
claimed property is about the view of a single caller). -/

/-- `ExecutionStatus` enum from lib/execution.go. -/
inductive ExecutionStatus where
  | created | initVUs | initExecutors | initDone | pausedBeforeRun
  | started | setup | running | teardown | ended | interrupted
deriving DecidableEq, Repr

/-- The slice of `ExecutionState` that `MarkStarted`/`MarkEnded` touch. -/
structure MarkState where
  startTime : Int
  endTime : Int
  executionStatus : ExecutionStatus
deriving DecidableEq, Repr

/-- `ExecutionState.MarkStarted`: CAS `startTime` from 0 to `now`; on CAS
failure the Go code panics (embedded as `Except.error` carrying the panic
message); on success it sets the status to `Started`. -/
def markStarted (now : Int) (s : MarkState) : Except String MarkState :=
  if s.startTime = 0 then
    Except.ok { s with startTime := now,
                       executionStatus := ExecutionStatus.started }
  else
    Except.error "the execution scheduler was started a second time"

/-- `ExecutionState.MarkEnded`: CAS `endTime` from 0 to `now`; panic on
failure, status `Ended` on success. -/
def markEnded (now : Int) (s : MarkState) : Except String MarkState :=
  if s.endTime = 0 then
    Except.ok { s with endTime := now,
                       executionStatus := ExecutionStatus.ended }
  else
    Except.error "the execution scheduler was stopped a second time"

/-- `ExecutionState.GetCurrentTestRunDuration`: 0 before start; otherwise
the end point is `endTime` if set, else `currentPauseTime` if set, else
`now`, minus `startTime` and `totalPausedDuration`. -/
def getCurrentTestRunDuration (startTime endTime currentPauseTime now
    totalPausedDuration : Int) : Int :=
  if startTime = 0 then 0
  else
    let e : Int :=
      if endTime = 0 then
        if currentPauseTime ≠ 0 then currentPauseTime else now
      else endTime
    e - startTime - totalPausedDuration

/-- Modelled from the spec: the formula the specification gives for
`GetCurrentTestRunDuration`, namely
`min(endTime, currentPauseTime, now) − startTime − totalPausedDuration`
with the zero timestamps absent from the min (`now` always present). -/
def getCurrentTestRunDurationSpec (startTime endTime currentPauseTime now
    totalPausedDuration : Int) : Int :=
  if startTime = 0 then 0
  else
    let m1 : Int :=
      if currentPauseTime = 0 then now else min currentPauseTime now
    let m2 : Int := if endTime = 0 then m1 else min endTime m1
    m2 - startTime - totalPausedDuration

/-- The slice of `ExecutionState` that `Pause`/`Resume` touch. The
`resumeNotify` channel is modelled by a generation counter (bumped whenever
`Pause` replaces it with a fresh open channel) plus a closed flag. -/
structure PauseState where
  currentPauseTime : Int
  totalPausedDuration : Int
  startTime : Int
  resumeNotifyGen : Nat
  resumeNotifyClosed : Bool
deriving DecidableEq, Repr

/-- `ExecutionState.Pause`: CAS `currentPauseTime` from 0 to `now`; on
failure return the error before touching anything else; on success replace
`resumeNotify` with a fresh open channel. Returns (state after the call,
error if any). -/
def pause (now : Int) (s : PauseState) : PauseState × Option String :=
  if s.currentPauseTime = 0 then
    ({ s with currentPauseTime := now,
              resumeNotifyGen := s.resumeNotifyGen + 1,
              resumeNotifyClosed := false }, none)
  else
    (s, some "test execution was already paused")

/-- `ExecutionState.Resume`: swap `currentPauseTime` with 0; if the old
value was 0 return the error (the swap wrote the 0 that was already there);
otherwise accumulate the paused span when the test had started, and close
`resumeNotify`. -/
def resume (now : Int) (s : PauseState) : PauseState × Option String :=
  let old := s.currentPauseTime
  let s1 : PauseState := { s with currentPauseTime := 0 }
  if old = 0 then
    (s1, some "test execution was not paused")
  else
    ({ s1 with
        totalPausedDuration :=
          if s.startTime ≠ 0 then s.totalPausedDuration + (now - old)
          else s.totalPausedDuration,
        resumeNotifyClosed := true }, none)

/-! ### VU borrowing (GetPlannedVU / GetUnplannedVU) -/

/-- `MaxTimeToWaitForPlannedVU` (400ms), in milliseconds. -/
def maxTimeToWaitForPlannedVUMs : Nat := 400

/-- `MaxRetriesGetPlannedVU`. -/
def maxRetriesGetPlannedVU : Nat := 5

/-- The slice of `ExecutionState` that `GetPlannedVU` touches: the `vus`
buffer (VUs as labels, FIFO), the active-VU counter, and the log of warning
messages (each recorded as the cumulative wait in ms that the warning
reports). -/
structure PlannedVUState where
  vus : List Nat
  activeVUs : Int
  warnings : List Nat
deriving DecidableEq, Repr

/-- Result of `GetPlannedVU`: a VU, or the error carrying the total wait. -/
inductive PlannedVUResult where
  | ok (vu : Nat) : PlannedVUResult
  | err (totalWaitMs : Nat) : PlannedVUResult
deriving DecidableEq, Repr

/-- The retry loop of `ExecutionState.GetPlannedVU`, from attempt `i`
(Go: `for i := 1; i <= MaxRetriesGetPlannedVU; i++`). Each attempt either
receives from the `vus` buffer — bumping `activeVUs` when
`modifyActiveVUCount` — or times out after 400ms, logging a warning with the
cumulative wait `i*400ms`. After the last attempt the error reports
`MaxRetriesGetPlannedVU * MaxTimeToWaitForPlannedVU`. The claims' hypothesis
is a buffer that stays empty during the call, so buffer contents are fixed
for its duration. -/
def getPlannedVUFrom (modifyActiveVUCount : Bool) (i : Nat)
    (s : PlannedVUState) : PlannedVUState × PlannedVUResult :=
  if maxRetriesGetPlannedVU < i then
    (s, PlannedVUResult.err (maxRetriesGetPlannedVU * maxTimeToWaitForPlannedVUMs))
  else
    match s.vus with
    | vu :: rest =>
        ({ s with vus := rest,
                  activeVUs :=
                    if modifyActiveVUCount then s.activeVUs + 1
                    else s.activeVUs },
         PlannedVUResult.ok vu)
    | [] =>
        getPlannedVUFrom modifyActiveVUCount (i + 1)
          { s with warnings := s.warnings ++ [i * maxTimeToWaitForPlannedVUMs] }
termination_by maxRetriesGetPlannedVU + 1 - i

/-- `ExecutionState.GetPlannedVU` (attempts start at 1). -/
def getPlannedVU (modifyActiveVUCount : Bool) (s : PlannedVUState) :
    PlannedVUState × PlannedVUResult :=
  getPlannedVUFrom modifyActiveVUCount 1 s

/-- The slice of `ExecutionState` that `GetUnplannedVU` touches, plus a
ghost count of how many VUs were lazily constructed via `initVUFunc`. -/
structure UnplannedVUState where
  uninitializedUnplannedVUs : Int
  initializedVUs : Int
  constructed : Nat
deriving DecidableEq, Repr

/-- Result of `GetUnplannedVU`: a freshly constructed VU, a fallback to
`GetPlannedVU(logger, false)`, or an `initVUFunc` failure. -/
inductive UnplannedVUResult where
  | fresh : UnplannedVUResult
  | fallbackToPlanned : UnplannedVUResult
  | initError : UnplannedVUResult
deriving DecidableEq, Repr

/-- `ExecutionState.GetUnplannedVU`: atomically decrement
`uninitializedUnplannedVUs`; if the result is negative, revert the decrement
and fall back to `GetPlannedVU(logger, false)`; otherwise call
`InitializeNewVU`, which runs `initVUFunc` (outcome `initOk`) and on success
increments `initializedVUs`. -/
def getUnplannedVU (initOk : Bool) (s : UnplannedVUState) :
    UnplannedVUState × UnplannedVUResult :=
  let remVUs := s.uninitializedUnplannedVUs - 1
  if remVUs < 0 then
    ({ s with uninitializedUnplannedVUs := remVUs + 1 },
     UnplannedVUResult.fallbackToPlanned)
  else
    if initOk then
      ({ s with uninitializedUnplannedVUs := remVUs,
                initializedVUs := s.initializedVUs + 1,
                constructed := s.constructed + 1 },
       UnplannedVUResult.fresh)
    else
      ({ s with uninitializedUnplannedVUs := remVUs },
       UnplannedVUResult.initError)

/-- A sequence of `GetUnplannedVU` calls over the life of the run, each with
its `initVUFunc` outcome. -/
def runUnplannedCalls (s : UnplannedVUState) : List Bool → UnplannedVUState
  | [] => s
  | ok :: rest => runUnplannedCalls (getUnplannedVU ok s).1 rest

/-- The relevant initial counters of
`NewExecutionState(options, et, maxPlannedVUs, maxPossibleVUs)`:
`uninitializedUnplannedVUs` starts at `maxPossibleVUs − maxPlannedVUs`. -/
def newUnplannedVUState (maxPlannedVUs maxPossibleVUs : Nat) :
    UnplannedVUState :=
  { uninitializedUnplannedVUs := (maxPossibleVUs : Int) - (maxPlannedVUs : Int),
    initializedVUs := 0, constructed := 0 }

/-! ## TagMap (lib/state.go)

A Go `map[string]string` is embedded as an association list with distinct
keys (the operations below preserve that). Because Go maps are heap
references, aliasing matters for the `Clone` claim, so the maps live in a
small heap: a `TagMap` value is a reference into the heap, and `Clone`
allocates a fresh reference. -/

/-- Contents of one `map[string]string`. -/
abbrev TagMapData := List (String × String)

/-- `m[k]` lookup: the value and whether the key was found are both
recovered from the `Option`. -/
def tagGet (m : TagMapData) (k : String) : Option String :=
  (m.find? (fun p => p.1 == k)).map (fun p => p.2)

/-- `m[k] = v`: overwrite the entry of the key or insert it. -/
def tagSet (m : TagMapData) (k v : String) : TagMapData :=
  (k, v) :: m.filter (fun p => ¬(p.1 == k))

/-- `delete(m, k)`. -/
def tagDelete (m : TagMapData) (k : String) : TagMapData :=
  m.filter (fun p => ¬(p.1 == k))

/-- `len(m)`. -/
def tagLen (m : TagMapData) : Nat := m.length

/-- The heap of allocated maps: `contents r` is the map stored at reference
`r`, and references below `next` are allocated. -/
structure TagHeap where
  contents : Nat → TagMapData
  next : Nat

/-- Read the map at reference `r`. -/
def heapRead (h : TagHeap) (r : Nat) : TagMapData := h.contents r

/-- Overwrite the map at reference `r`. -/
def heapWrite (h : TagHeap) (r : Nat) (m : TagMapData) : TagHeap :=
  { h with contents := fun i => if i = r then m else h.contents i }

/-- Allocate a fresh map (`make(map[string]string, …)` filled with `m`). -/
def heapAlloc (h : TagHeap) (m : TagMapData) : TagHeap × Nat :=
  ({ contents := fun i => if i = h.next then m else h.contents i,
     next := h.next + 1 }, h.next)

/-- `TagMap.Clone`: snapshot the map behind `r` into a newly allocated map
(`tags := make(...); for k, v := range tg.m { tags[k] = v }`) and return the
new reference. -/
def tagClone (h : TagHeap) (r : Nat) : TagHeap × Nat :=
  heapAlloc h (heapRead h r)

/-- `TagMap.Set` on the map behind reference `r`. -/
def tagSetOp (h : TagHeap) (r : Nat) (k v : String) : TagHeap :=
  heapWrite h r (tagSet (heapRead h r) k v)

/-- `TagMap.Delete` on the map behind reference `r`. -/
def tagDeleteOp (h : TagHeap) (r : Nat) (k : String) : TagHeap :=
  heapWrite h r (tagDelete (heapRead h r) k)

/-! ## Cloud config (cloudapi/config.go)

`null.String`/`null.Int`/`null.Bool` wrap a value with a validity flag.
Durations are `Int` nanoseconds; the four float-valued aggregation
coefficients are embedded as exact rationals (they are only ever copied,
never computed with). JSON and environment decoding are out of core, so a
decode step is an input: `Except Unit Config` (`error` = decode failure). -/

/-- A `null.*` value: the payload plus its `Valid` flag. -/
structure Null (α : Type) where
  val : α
  valid : Bool
deriving DecidableEq, Repr

/-- `null.StringFrom`: a valid string. -/
def nullStringFrom (s : String) : Null String := ⟨s, true⟩

/-- `cloudapi.Config`, all 22 fields. -/
structure Config where
  pushRefID : Null String
  token : Null String
  name : Null String
  host : Null String
  webAppURL : Null String
  logsTailURL : Null String
  metricPushInterval : Null Int
  timeout : Null Int
  aggregationOutlierIqrCoefLower : Null ℚ
  aggregationOutlierIqrRadius : Null ℚ
  maxMetricSamplesPerPackage : Null Int
  projectID : Null Int
  metricPushConcurrency : Null Int
  aggregationPeriod : Null Int
  aggregationCalcInterval : Null Int
  aggregationWaitPeriod : Null Int
  aggregationMinSamples : Null Int
  aggregationOutlierAlgoThreshold : Null Int
  aggregationOutlierIqrCoefUpper : Null ℚ
  aggregationSkipOutlierDetection : Null Bool
  stopOnError : Null Bool
  noCompress : Null Bool
deriving DecidableEq, Repr

/-- The Go zero value `Config{}`: every field invalid with a zero payload. -/
def emptyConfig : Config :=
  { pushRefID := ⟨"", false⟩, token := ⟨"", false⟩, name := ⟨"", false⟩,
    host := ⟨"", false⟩, webAppURL := ⟨"", false⟩, logsTailURL := ⟨"", false⟩,
    metricPushInterval := ⟨0, false⟩, timeout := ⟨0, false⟩,
    aggregationOutlierIqrCoefLower := ⟨0, false⟩,
    aggregationOutlierIqrRadius := ⟨0, false⟩,
    maxMetricSamplesPerPackage := ⟨0, false⟩, projectID := ⟨0, false⟩,
    metricPushConcurrency := ⟨0, false⟩, aggregationPeriod := ⟨0, false⟩,
    aggregationCalcInterval := ⟨0, false⟩, aggregationWaitPeriod := ⟨0, false⟩,
    aggregationMinSamples := ⟨0, false⟩,
    aggregationOutlierAlgoThreshold := ⟨0, false⟩,
    aggregationOutlierIqrCoefUpper := ⟨0, false⟩,
    aggregationSkipOutlierDetection := ⟨false, false⟩,
    stopOnError := ⟨false, false⟩, noCompress := ⟨false, false⟩ }

/-- `cloudapi.NewConfig`: the defaults (all marked non-valid, exactly as the
source constructs them with `null.New…(…, false)`). -/
def newConfig : Config :=
  { emptyConfig with
    host := ⟨"https://ingest.k6.io", false⟩,
    logsTailURL := ⟨"wss://cloudlogs.k6.io/api/v1/tail", false⟩,
    webAppURL := ⟨"https://app.k6.io", false⟩,
    metricPushInterval := ⟨1000000000, false⟩,
    metricPushConcurrency := ⟨1, false⟩,
    maxMetricSamplesPerPackage := ⟨100000, false⟩,
    timeout := ⟨60000000000, false⟩,
    aggregationCalcInterval := ⟨3000000000, false⟩,
    aggregationWaitPeriod := ⟨5000000000, false⟩,
    aggregationMinSamples := ⟨25, false⟩,
    aggregationOutlierAlgoThreshold := ⟨75, false⟩,
    aggregationOutlierIqrRadius := ⟨(1 : ℚ)/4, false⟩,
    aggregationOutlierIqrCoefLower := ⟨(3 : ℚ)/2, false⟩,
    aggregationOutlierIqrCoefUpper := ⟨(13 : ℚ)/10, false⟩ }

/-- `Config.Apply`: copy each non-zero field of `cfg` into `c`, with the
extra guards the source has (`ProjectID` also needs to be positive; `Name`,
`Host` and `LogsTailURL` also need to be non-empty). Each `if` of the source
touches exactly one field, so the sequential updates are written as one
per-field structure literal. -/
def Config.apply (c cfg : Config) : Config where
  token := if cfg.token.valid then cfg.token else c.token
  projectID :=
    if cfg.projectID.valid ∧ 0 < cfg.projectID.val then cfg.projectID
    else c.projectID
  name := if cfg.name.valid ∧ cfg.name.val ≠ "" then cfg.name else c.name
  host := if cfg.host.valid ∧ cfg.host.val ≠ "" then cfg.host else c.host
  logsTailURL :=
    if cfg.logsTailURL.valid ∧ cfg.logsTailURL.val ≠ "" then cfg.logsTailURL
    else c.logsTailURL
  pushRefID := if cfg.pushRefID.valid then cfg.pushRefID else c.pushRefID
  webAppURL := if cfg.webAppURL.valid then cfg.webAppURL else c.webAppURL
  noCompress := if cfg.noCompress.valid then cfg.noCompress else c.noCompress
  stopOnError := if cfg.stopOnError.valid then cfg.stopOnError else c.stopOnError
  timeout := if cfg.timeout.valid then cfg.timeout else c.timeout
  maxMetricSamplesPerPackage :=
    if cfg.maxMetricSamplesPerPackage.valid then cfg.maxMetricSamplesPerPackage
    else c.maxMetricSamplesPerPackage
  metricPushInterval :=
    if cfg.metricPushInterval.valid then cfg.metricPushInterval
    else c.metricPushInterval
  metricPushConcurrency :=
    if cfg.metricPushConcurrency.valid then cfg.metricPushConcurrency
    else c.metricPushConcurrency
  aggregationPeriod :=
    if cfg.aggregationPeriod.valid then cfg.aggregationPeriod
    else c.aggregationPeriod
  aggregationCalcInterval :=
    if cfg.aggregationCalcInterval.valid then cfg.aggregationCalcInterval
    else c.aggregationCalcInterval
  aggregationWaitPeriod :=
    if cfg.aggregationWaitPeriod.valid then cfg.aggregationWaitPeriod
    else c.aggregationWaitPeriod
  aggregationMinSamples :=
    if cfg.aggregationMinSamples.valid then cfg.aggregationMinSamples
    else c.aggregationMinSamples
  aggregationSkipOutlierDetection :=
    if cfg.aggregationSkipOutlierDetection.valid then
      cfg.aggregationSkipOutlierDetection
    else c.aggregationSkipOutlierDetection
  aggregationOutlierAlgoThreshold :=
    if cfg.aggregationOutlierAlgoThreshold.valid then
      cfg.aggregationOutlierAlgoThreshold
    else c.aggregationOutlierAlgoThreshold
  aggregationOutlierIqrRadius :=
    if cfg.aggregationOutlierIqrRadius.valid then cfg.aggregationOutlierIqrRadius
    else c.aggregationOutlierIqrRadius
  aggregationOutlierIqrCoefLower :=
    if cfg.aggregationOutlierIqrCoefLower.valid then
      cfg.aggregationOutlierIqrCoefLower
    else c.aggregationOutlierIqrCoefLower
  aggregationOutlierIqrCoefUpper :=
    if cfg.aggregationOutlierIqrCoefUpper.valid then
      cfg.aggregationOutlierIqrCoefUpper
    else c.aggregationOutlierIqrCoefUpper

/-- `cloudapi.MergeFromExternal`: the "loadimpact" key of the external map
is either absent (`none`), present but failing to unmarshal
(`some (Except.error ())`), or decoding to `tmpConfig`. Only `ProjectID`,
`Name` and `Token` are taken from the decoded value, each whenever it is
valid. Returns the updated config and whether an error was returned. -/
def mergeFromExternal (external : Option (Except Unit Config))
    (conf : Config) : Config × Bool :=
  match external with
  | none => (conf, false)
  | some (Except.error _) => (conf, true)
  | some (Except.ok tmpConfig) =>
      ({ conf with
          projectID :=
            if tmpConfig.projectID.valid then tmpConfig.projectID
            else conf.projectID,
          name := if tmpConfig.name.valid then tmpConfig.name else conf.name,
          token := if tmpConfig.token.valid then tmpConfig.token else conf.token },
       false)

/-- The tail of `cloudapi.GetConsolidatedConfig` after the JSON step: the
loadimpact override, then environment variables, then the CLI `configArg`
(which sets only `Name`). -/
def getConsolidatedConfigRest (result : Config)
    (external : Option (Except Unit Config)) (envConf : Except Unit Config)
    (configArg : String) : Config × Bool :=
  match mergeFromExternal external result with
  | (result, true) => (result, true)
  | (result, false) =>
      match envConf with
      | Except.error _ => (result, true)
      | Except.ok envConfig =>
          let result := result.apply envConfig
          let result :=
            if configArg ≠ "" then
              { result with name := nullStringFrom configArg }
            else result
          (result, false)

/-- `cloudapi.GetConsolidatedConfig`: defaults, then the JSON config, then
the loadimpact override, then environment variables, then the CLI `configArg`
(which sets only `Name`). Decode steps are inputs: `jsonRawConf = none`
models a nil JSON blob, `Except.error` a decode failure. Returns the config
and whether an error was returned (on error, the config built so far, as in
the source). -/
def getConsolidatedConfig (jsonRawConf : Option (Except Unit Config))
    (external : Option (Except Unit Config)) (envConf : Except Unit Config)
    (configArg : String) : Config × Bool :=
  let result := newConfig
  match jsonRawConf with
  | some (Except.error _) => (result, true)
  | some (Except.ok jsonConf) =>
      getConsolidatedConfigRest (result.apply jsonConf) external envConf configArg
  | none => getConsolidatedConfigRest result external envConf configArg

/-! ## Theorems -/

/-! ### Event loop -/

/-- Running one task preserves "one pending completer per reservation". -/
lemma runTask_reserved_eq_pending (s : LoopState) (t : LTask)
    (h : s.reservedCount = s.pending.length) :
    (runTask s t).reservedCount = (runTask s t).pending.length := by
  cases t <;> simp [runTask, h]

/-- Running a drained batch preserves the reservation/pending balance. -/
lemma runQueue_reserved_eq_pending (q : List LTask) (s : LoopState)
    (h : s.reservedCount = s.pending.length) :
    (runQueue s q).reservedCount = (runQueue s q).pending.length := by
  induction q generalizing s with
  | nil => simpa [runQueue] using h
  | cons t ts ih =>
    rw [runQueue]
    by_cases hc : s.cancelled
    · simpa [hc] using h
    · simpa [hc] using ih _ (runTask_reserved_eq_pending s t h)

/-- C1: for every queue content and reservation count (with one outstanding
completer per reservation), `eventLoop.Start` returns only when the task
queue is empty and `reservedCount == 0` — with the completion of every reservation fired and its task run (`pending = []`) — or when the driving
context is cancelled. -/
theorem eventLoop_start_quiescent (fuel : Nat) (s s' : LoopState)
    (hinv : s.reservedCount = s.pending.length)
    (hrun : startLoop fuel s = some s') :
    s'.cancelled = true ∨
      (s'.queue = [] ∧ s'.reservedCount = 0 ∧ s'.pending = []) := by
  induction fuel generalizing s with
  | zero => simp [startLoop] at hrun
  | succ fuel ih =>
    rw [startLoop] at hrun
    by_cases hc : s.cancelled
    · simp only [hc, if_pos] at hrun
      cases hrun
      exact Or.inl hc
    · simp only [hc, if_neg, Bool.false_eq_true, not_false_iff] at hrun
      cases hq : s.queue with
      | nil =>
        rw [hq] at hrun
        by_cases hr : s.reservedCount = 0
        · simp only [hr, if_pos] at hrun
          cases hrun
          have hp0 : s.pending = [] := by
            have : s.pending.length = 0 := by rw [← hinv]; exact hr
            simpa using this
          exact Or.inr ⟨rfl, by simp [hr], by simp [hp0]⟩
        · simp only [hr, if_neg, not_false_iff] at hrun
          cases hp : s.pending with
          | nil => rw [hp] at hinv; simp [hinv] at hr
          | cons t rest =>
            rw [hp] at hrun
            refine ih _ ?_ hrun
            simp only [hp, List.length_cons] at hinv
            simp [hinv]
      | cons t ts =>
        rw [hq] at hrun
        refine ih _ ?_ hrun
        exact runQueue_reserved_eq_pending _ _ hinv

/-- Witness for C1: the S2 scenario — one task that reserves a spot and
whose completer later enqueues a second task. `Start` terminates uncancelled
with an empty queue, no reservations, no outstanding completers, and both
tasks executed (in order). -/
theorem eventLoop_start_quiescent_witness :
    (LoopState.mk [LTask.reserve 0 (LTask.simple 1)] 0 [] [] false).reservedCount
        = (LoopState.mk [LTask.reserve 0 (LTask.simple 1)] 0 [] [] false).pending.length
      ∧ startLoop 4 (LoopState.mk [LTask.reserve 0 (LTask.simple 1)] 0 [] [] false)
          = some (LoopState.mk [] 0 [] [0, 1] false)
      ∧ ((LoopState.mk [] 0 [] [0, 1] false).cancelled = true ∨
          ((LoopState.mk [] 0 [] [0, 1] false).queue = [] ∧
           (LoopState.mk [] 0 [] [0, 1] false).reservedCount = 0 ∧
           (LoopState.mk [] 0 [] [0, 1] false).pending = [])) :=
  ⟨rfl, rfl,
    eventLoop_start_quiescent 4
      (LoopState.mk [LTask.reserve 0 (LTask.simple 1)] 0 [] [] false)
      (LoopState.mk [] 0 [] [0, 1] false) rfl rfl⟩

/-- Running a batch of plain tasks just logs them in order. -/
lemma runQueue_simple (ids : List Nat) (s : LoopState)
    (hc : s.cancelled = false) :
    runQueue s (ids.map LTask.simple) = { s with executed := s.executed ++ ids } := by
  induction ids generalizing s with
  | nil => simp [runQueue]
  | cons i is ih =>
    rw [List.map_cons, runQueue, if_neg (by simp [hc])]
    rw [ih _ (by simp [runTask, hc])]
    simp [runTask]

/-- C7: enqueueing `k` tasks via `RunOnLoop` with no outstanding
reservations and starting the loop with an uncancelled context executes
exactly those `k` tasks, once each, in FIFO order, and returns; and a task
enqueued by a running task runs in the next drain cycle, after the whole
current snapshot batch (here: the tasks `bs` enqueued by `a` run after `c`, which
was behind `a` in the snapshot). -/
theorem eventLoop_runs_batch_fifo :
    (∀ ids : List Nat,
      startLoop 2 (initLoop (ids.map LTask.simple))
        = some (LoopState.mk [] 0 [] ids false)) ∧
    (∀ (a c : Nat) (bs : List Nat),
      startLoop 3 (initLoop [LTask.enqueue a (bs.map LTask.simple), LTask.simple c])
        = some (LoopState.mk [] 0 [] (a :: c :: bs) false)) := by
  constructor
  · intro ids
    cases ids with
    | nil => rfl
    | cons i is =>
      rw [startLoop]
      simp only [initLoop, List.map_cons]
      rw [if_neg (by simp), ← List.map_cons, runQueue_simple (i :: is) _ (by simp)]
      rfl
  · intro a c bs
    rw [startLoop]
    simp only [initLoop]
    rw [if_neg (by simp)]
    have hbatch :
        runQueue { queue := [], reservedCount := 0, pending := [], executed := [],
                   cancelled := false }
          [LTask.enqueue a (bs.map LTask.simple), LTask.simple c]
        = LoopState.mk (bs.map LTask.simple) 0 [] [a, c] false := by
      simp [runQueue, runTask]
    rw [hbatch]
    cases bs with
    | nil => rfl
    | cons b bs' =>
      rw [startLoop]
      simp only [List.map_cons]
      rw [if_neg (by simp), ← List.map_cons, runQueue_simple (b :: bs') _ (by simp)]
      rfl

/-! ### Unplanned VUs -/

/-- One `GetUnplannedVU` call never increases `constructed + remaining`,
and keeps the remaining-unplanned counter non-negative. -/
lemma getUnplannedVU_measure (ok : Bool) (s : UnplannedVUState) :
    ((getUnplannedVU ok s).1.constructed : ℤ)
        + (getUnplannedVU ok s).1.uninitializedUnplannedVUs
      ≤ (s.constructed : ℤ) + s.uninitializedUnplannedVUs
    ∧ (0 ≤ s.uninitializedUnplannedVUs →
        0 ≤ (getUnplannedVU ok s).1.uninitializedUnplannedVUs) := by
  unfold getUnplannedVU
  by_cases hrem : s.uninitializedUnplannedVUs - 1 < 0
  · simp only [hrem, if_pos]
    constructor
    · simp
    · intro h0; simpa using h0
  · cases ok <;> simp only [hrem, if_neg, not_false_iff, Bool.false_eq_true, if_true, if_false] <;>
      constructor <;> simp <;> omega

/-- Over any sequence of `GetUnplannedVU` calls, `constructed + remaining`
never increases and `remaining` stays non-negative. -/
lemma runUnplannedCalls_measure (oks : List Bool) (s : UnplannedVUState)
    (h0 : 0 ≤ s.uninitializedUnplannedVUs) :
    ((runUnplannedCalls s oks).constructed : ℤ)
        + (runUnplannedCalls s oks).uninitializedUnplannedVUs
      ≤ (s.constructed : ℤ) + s.uninitializedUnplannedVUs
    ∧ 0 ≤ (runUnplannedCalls s oks).uninitializedUnplannedVUs := by
  induction oks generalizing s with
  | nil => exact ⟨le_refl _, h0⟩
  | cons ok rest ih =>
    rw [runUnplannedCalls]
    have step := getUnplannedVU_measure ok s
    have := ih (getUnplannedVU ok s).1 (step.2 h0)
    exact ⟨this.1.trans step.1, this.2⟩

/-- C2: `GetUnplannedVU` reverts the speculative decrement and falls back to
`GetPlannedVU(false)` when no uninitialized unplanned VUs remain; otherwise
(and when `initVUFunc` succeeds) it constructs a fresh VU, decrements the
remaining-unplanned counter and bumps `initializedVUs`; consequently, over
the whole run the number of lazy constructions is at most
`maxPossibleVUs − maxPlannedVUs`. -/
theorem getUnplannedVU_lazy_bound (ok : Bool) (s : UnplannedVUState)
    (oks : List Bool) (maxPlannedVUs maxPossibleVUs : Nat)
    (hle : maxPlannedVUs ≤ maxPossibleVUs) :
    (s.uninitializedUnplannedVUs ≤ 0 →
      getUnplannedVU ok s = (s, UnplannedVUResult.fallbackToPlanned)) ∧
    (0 < s.uninitializedUnplannedVUs → ok = true →
      getUnplannedVU ok s =
        ({ uninitializedUnplannedVUs := s.uninitializedUnplannedVUs - 1,
           initializedVUs := s.initializedVUs + 1,
           constructed := s.constructed + 1 }, UnplannedVUResult.fresh)) ∧
    (runUnplannedCalls (newUnplannedVUState maxPlannedVUs maxPossibleVUs) oks).constructed
      ≤ maxPossibleVUs - maxPlannedVUs := by
  refine ⟨?_, ?_, ?_⟩
  · intro hle0
    unfold getUnplannedVU
    rw [if_pos (by omega)]
    cases s
    simp
  · intro hpos hok
    subst hok
    unfold getUnplannedVU
    rw [if_neg (by omega)]
    simp
  · have h0 : 0 ≤ (newUnplannedVUState maxPlannedVUs maxPossibleVUs).uninitializedUnplannedVUs := by
      simp [newUnplannedVUState]; omega
    have hm := runUnplannedCalls_measure oks (newUnplannedVUState maxPlannedVUs maxPossibleVUs) h0
    have hsum := hm.1
    have hpos := hm.2
    simp only [newUnplannedVUState] at hsum hpos ⊢
    omega

/-- Witness for C2: with `maxPlannedVUs = 2`, `maxPossibleVUs = 5` and seven
unplanned requests, at most `5 − 2` VUs are lazily constructed. -/
theorem getUnplannedVU_lazy_bound_witness :
    2 ≤ 5 ∧
    (runUnplannedCalls (newUnplannedVUState 2 5)
        [true, true, true, true, true, true, false]).constructed ≤ 5 - 2 :=
  ⟨by omega,
    (getUnplannedVU_lazy_bound true (newUnplannedVUState 2 5)
      [true, true, true, true, true, true, false] 2 5 (by omega)).2.2⟩

/-! ### Test run duration -/

/-- C3 counterexample: with `startTime = 1`, `endTime = 5`,
`currentPauseTime = 3`, `now = 10` and no accumulated pauses, the code uses
`endTime` (returning 4) while the 3-way min formula of the spec would use
`currentPauseTime` (returning 2). -/
theorem getCurrentTestRunDuration_not_min :
    getCurrentTestRunDuration 1 5 3 10 0 ≠
      getCurrentTestRunDurationSpec 1 5 3 10 0 := by decide

/-- C3 (amended): `GetCurrentTestRunDuration` returns 0 before start, and
otherwise subtracts `startTime` and `totalPausedDuration` from `endTime` if
set, else `currentPauseTime` if set, else `now` — a priority choice that
agrees with the min formula of the spec whenever at most one of `endTime` and
`currentPauseTime` is nonzero and neither lies in the future. -/
theorem getCurrentTestRunDuration_priority (st et pt now paused : Int)
    (het : et ≤ now) (hpt : pt ≤ now) (hdisj : et = 0 ∨ pt = 0) :
    getCurrentTestRunDuration 0 et pt now paused = 0 ∧
    getCurrentTestRunDuration st et pt now paused
      = getCurrentTestRunDurationSpec st et pt now paused := by
  constructor
  · simp [getCurrentTestRunDuration]
  · unfold getCurrentTestRunDuration getCurrentTestRunDurationSpec
    by_cases hst : st = 0
    · simp [hst]
    · rw [if_neg hst, if_neg hst]
      rcases hdisj with het0 | hpt0
      · subst het0
        by_cases hpt0 : pt = 0
        · simp [hpt0]
        · simp [hpt0, min_eq_left hpt]
      · subst hpt0
        by_cases het0 : et = 0
        · simp [het0]
        · simp [het0, min_eq_left het]

/-- Witness for the amended C3 theorem: a started, unpaused, unfinished test
at `now = 10` with 2ns of accumulated pause. -/
theorem getCurrentTestRunDuration_priority_witness :
    (5 : Int) ≤ 10 ∧ (0 : Int) ≤ 10 ∧ ((5 : Int) = 0 ∨ (0 : Int) = 0) ∧
    (getCurrentTestRunDuration 0 5 0 10 2 = 0 ∧
      getCurrentTestRunDuration 1 5 0 10 2
        = getCurrentTestRunDurationSpec 1 5 0 10 2) :=
  ⟨by decide, by decide, Or.inr rfl,
    getCurrentTestRunDuration_priority 1 5 0 10 2 (by decide) (by decide)
      (Or.inr rfl)⟩

/-! ### Pause / Resume -/

/-- C4: `Pause` errors exactly when already paused and `Resume` errors
exactly when not paused, and in both error cases the state — including
`currentPauseTime`, `totalPausedDuration` and the `resumeNotify` channel —
is left unchanged. -/
theorem pause_resume_mismatch (now : Int) (s : PauseState) :
    ((pause now s).2.isSome ↔ s.currentPauseTime ≠ 0) ∧
    ((resume now s).2.isSome ↔ s.currentPauseTime = 0) ∧
    (s.currentPauseTime ≠ 0 → (pause now s).1 = s) ∧
    (s.currentPauseTime = 0 → (resume now s).1 = s) := by
  by_cases h : s.currentPauseTime = 0
  · cases s
    simp_all [pause, resume]
  · simp [pause, resume, h]

/-- Witness for C4: pausing a paused state and resuming an unpaused state
both leave the state untouched. -/
theorem pause_resume_mismatch_witness :
    (pause 7 (PauseState.mk 3 0 1 0 false)).1 = PauseState.mk 3 0 1 0 false ∧
    (resume 7 (PauseState.mk 0 0 1 0 true)).1 = PauseState.mk 0 0 1 0 true :=
  ⟨(pause_resume_mismatch 7 (PauseState.mk 3 0 1 0 false)).2.2.1 (by decide),
   (pause_resume_mismatch 7 (PauseState.mk 0 0 1 0 true)).2.2.2 rfl⟩

/-! ### Planned VUs -/

/-- C5: with a buffer that stays empty, `GetPlannedVU` makes 5 attempts of
400ms each, logs a warning per timed-out attempt (carrying the cumulative
wait), and returns no VU together with an error carrying the 2000ms total
wait, leaving `activeVUs` untouched; on a non-empty buffer it returns the
head VU and bumps `activeVUs` exactly when `modifyActiveVUCount` is set. -/
theorem getPlannedVU_retry_policy (modifyActiveVUCount : Bool)
    (s : PlannedVUState) :
    (s.vus = [] →
      getPlannedVU modifyActiveVUCount s
        = ({ s with warnings := s.warnings ++ [400, 800, 1200, 1600, 2000] },
           PlannedVUResult.err 2000)) ∧
    (∀ vu rest, s.vus = vu :: rest →
      getPlannedVU modifyActiveVUCount s
        = ({ s with vus := rest,
                    activeVUs :=
                      if modifyActiveVUCount = true then s.activeVUs + 1
                      else s.activeVUs },
           PlannedVUResult.ok vu)) := by
  constructor
  · intro hvus
    simp [getPlannedVU, getPlannedVUFrom, hvus, maxRetriesGetPlannedVU,
      maxTimeToWaitForPlannedVUMs]
  · intro vu rest hvus
    rw [getPlannedVU, getPlannedVUFrom]
    simp [hvus, maxRetriesGetPlannedVU]

/-- Witness for C5: an empty buffer exhausts the 5 retries with warnings at
400..2000ms and errors with the 2000ms cumulative wait; a one-element buffer
yields that VU and bumps `activeVUs`. -/
theorem getPlannedVU_retry_policy_witness :
    getPlannedVU true (PlannedVUState.mk [] 0 [])
        = (PlannedVUState.mk [] 0 [400, 800, 1200, 1600, 2000],
           PlannedVUResult.err 2000) ∧
    getPlannedVU true (PlannedVUState.mk [7] 0 [])
        = (PlannedVUState.mk [] 1 [], PlannedVUResult.ok 7) :=
  ⟨by
      have h := (getPlannedVU_retry_policy true (PlannedVUState.mk [] 0 [])).1 rfl
      simpa using h,
   by
      have h := (getPlannedVU_retry_policy true (PlannedVUState.mk [7] 0 [])).2 7 [] rfl
      simpa using h⟩

/-! ### MarkStarted / MarkEnded -/

/-- C6: the first `MarkStarted` succeeds (setting the `Started` status) and
any second call panics via the failed compare-and-swap on `startTime`;
likewise `MarkEnded` with `endTime` and the `Ended` status. -/
theorem markStarted_markEnded_twice_panic (s : MarkState) (now now2 : Int)
    (hstart : s.startTime = 0) (hend : s.endTime = 0)
    (hnow : now ≠ 0) (hnow2 : now2 ≠ 0) :
    markStarted now s
      = Except.ok { s with
          startTime := now,
          executionStatus := ExecutionStatus.started } ∧
    (∀ n, markStarted n { s with
          startTime := now,
          executionStatus := ExecutionStatus.started }
      = Except.error "the execution scheduler was started a second time") ∧
    markEnded now2 s
      = Except.ok { s with
          endTime := now2,
          executionStatus := ExecutionStatus.ended } ∧
    (∀ n, markEnded n { s with
          endTime := now2,
          executionStatus := ExecutionStatus.ended }
      = Except.error "the execution scheduler was stopped a second time") := by
  refine ⟨?_, ?_, ?_, ?_⟩
  · rw [markStarted, if_pos hstart]
  · intro n
    rw [markStarted, if_neg (by simpa using hnow)]
  · rw [markEnded, if_pos hend]
  · intro n
    rw [markEnded, if_neg (by simpa using hnow2)]

/-- Witness for C6: a fresh state is started at t=5; a second `MarkStarted`
at t=9 panics. -/
theorem markStarted_markEnded_twice_panic_witness :
    markStarted 5 (MarkState.mk 0 0 ExecutionStatus.created)
      = Except.ok (MarkState.mk 5 0 ExecutionStatus.started) ∧
    markStarted 9 (MarkState.mk 5 0 ExecutionStatus.started)
      = Except.error "the execution scheduler was started a second time" ∧
    markEnded 9 (MarkState.mk 0 6 ExecutionStatus.ended)
      = Except.error "the execution scheduler was stopped a second time" :=
  by
  obtain ⟨h1, h2, h3, h4⟩ :=
    markStarted_markEnded_twice_panic (MarkState.mk 0 0 ExecutionStatus.created)
      5 6 rfl rfl (by decide) (by decide)
  exact ⟨h1, h2 9, h4 9⟩

/-! ### TagMap -/

/-- C8: `Clone` returns a newly allocated map holding exactly the current
key/value pairs, and mutating the clone — insert/overwrite via `Set`, or
`Delete` — leaves the contents of the original `TagMap` (hence every `Get`/`Len`
observation of it) unchanged. -/
theorem tagMap_clone_isolated (h : TagHeap) (r : Nat) (hr : r < h.next) :
    (tagClone h r).2 ≠ r ∧
    heapRead (tagClone h r).1 (tagClone h r).2 = heapRead h r ∧
    (∀ k v, heapRead (tagSetOp (tagClone h r).1 (tagClone h r).2 k v) r
      = heapRead h r) ∧
    (∀ k, heapRead (tagDeleteOp (tagClone h r).1 (tagClone h r).2 k) r
      = heapRead h r) := by
  have hne : r ≠ h.next := Nat.ne_of_lt hr
  refine ⟨Ne.symm hne, ?_, ?_, ?_⟩ <;>
    simp [tagClone, heapAlloc, heapRead, heapWrite, tagSetOp, tagDeleteOp, hne]

/-- A one-map heap used to witness the `Clone` isolation theorem. -/
def tagHeapExample : TagHeap :=
  { contents := fun i => if i = 0 then [("k", "v")] else [], next := 1 }

/-- Witness for C8: cloning the only map of `tagHeapExample` and writing or
deleting through the clone leaves the original contents intact. -/
theorem tagMap_clone_isolated_witness :
    0 < tagHeapExample.next ∧
    (tagClone tagHeapExample 0).2 ≠ 0 ∧
    heapRead (tagSetOp (tagClone tagHeapExample 0).1
        (tagClone tagHeapExample 0).2 "x" "y") 0
      = heapRead tagHeapExample 0 ∧
    heapRead (tagDeleteOp (tagClone tagHeapExample 0).1
        (tagClone tagHeapExample 0).2 "k") 0
      = heapRead tagHeapExample 0 := by
  obtain ⟨h1, h2, h3, h4⟩ := tagMap_clone_isolated tagHeapExample 0 (by decide)
  exact ⟨by decide, h1, h3 "x" "y", h4 "k"⟩

/-! ### Cloud config -/

/-- `Apply` on the `Token` field. -/
lemma Config.apply_token (a b : Config) :
    (a.apply b).token = if b.token.valid then b.token else a.token := rfl

/-- `Apply` on the `Name` field. -/
lemma Config.apply_name (a b : Config) :
    (a.apply b).name
      = if b.name.valid ∧ b.name.val ≠ "" then b.name else a.name := rfl

/-- Successful `MergeFromExternal` on the `Token` field. -/
lemma mergeFromExternal_ok_token (tmp conf : Config) :
    (mergeFromExternal (some (Except.ok tmp)) conf).1.token
      = if tmp.token.valid then tmp.token else conf.token := rfl

/-- The consolidated token before the CLI step: the CLI argument touches
only `Name`, so the token is the one produced by applying the environment
config over the merged result. -/
lemma getConsolidatedConfig_token_pipeline (jc ext env : Config) (arg : String) :
    (getConsolidatedConfig (some (Except.ok jc)) (some (Except.ok ext))
        (Except.ok env) arg).1.token
      = ((mergeFromExternal (some (Except.ok ext)) (newConfig.apply jc)).1.apply
          env).token := by
  show (getConsolidatedConfigRest (newConfig.apply jc) (some (Except.ok ext))
      (Except.ok env) arg).1.token = _
  by_cases harg : arg = "" <;>
    simp [getConsolidatedConfigRest, mergeFromExternal, harg]

/-- C9: with a "loadimpact" key that decodes to `tmp`, `MergeFromExternal`
changes at most `ProjectID`, `Name` and `Token` (each exactly when the
decoded field is valid) and leaves the remaining 19 fields of the target
untouched; and `GetConsolidatedConfig` applies its sources in the order
defaults → JSON → loadimpact override → environment → CLI argument, as the
`Token` precedence chain and the CLI-sets-only-`Name` facts show. -/
theorem mergeFromExternal_frame_and_precedence
    (tmp conf jc ext env : Config) (arg : String) :
    (mergeFromExternal (some (Except.ok tmp)) conf).2 = false ∧
    (mergeFromExternal (some (Except.ok tmp)) conf).1.pushRefID = conf.pushRefID ∧
    (mergeFromExternal (some (Except.ok tmp)) conf).1.host = conf.host ∧
    (mergeFromExternal (some (Except.ok tmp)) conf).1.webAppURL = conf.webAppURL ∧
    (mergeFromExternal (some (Except.ok tmp)) conf).1.logsTailURL = conf.logsTailURL ∧
    (mergeFromExternal (some (Except.ok tmp)) conf).1.metricPushInterval
      = conf.metricPushInterval ∧
    (mergeFromExternal (some (Except.ok tmp)) conf).1.timeout = conf.timeout ∧
    (mergeFromExternal (some (Except.ok tmp)) conf).1.aggregationOutlierIqrCoefLower
      = conf.aggregationOutlierIqrCoefLower ∧
    (mergeFromExternal (some (Except.ok tmp)) conf).1.aggregationOutlierIqrRadius
      = conf.aggregationOutlierIqrRadius ∧
    (mergeFromExternal (some (Except.ok tmp)) conf).1.maxMetricSamplesPerPackage
      = conf.maxMetricSamplesPerPackage ∧
    (mergeFromExternal (some (Except.ok tmp)) conf).1.metricPushConcurrency
      = conf.metricPushConcurrency ∧
    (mergeFromExternal (some (Except.ok tmp)) conf).1.aggregationPeriod
      = conf.aggregationPeriod ∧
    (mergeFromExternal (some (Except.ok tmp)) conf).1.aggregationCalcInterval
      = conf.aggregationCalcInterval ∧
    (mergeFromExternal (some (Except.ok tmp)) conf).1.aggregationWaitPeriod
      = conf.aggregationWaitPeriod ∧
    (mergeFromExternal (some (Except.ok tmp)) conf).1.aggregationMinSamples
      = conf.aggregationMinSamples ∧
    (mergeFromExternal (some (Except.ok tmp)) conf).1.aggregationOutlierAlgoThreshold
      = conf.aggregationOutlierAlgoThreshold ∧
    (mergeFromExternal (some (Except.ok tmp)) conf).1.aggregationOutlierIqrCoefUpper
      = conf.aggregationOutlierIqrCoefUpper ∧
    (mergeFromExternal (some (Except.ok tmp)) conf).1.aggregationSkipOutlierDetection
      = conf.aggregationSkipOutlierDetection ∧
    (mergeFromExternal (some (Except.ok tmp)) conf).1.stopOnError = conf.stopOnError ∧
    (mergeFromExternal (some (Except.ok tmp)) conf).1.noCompress = conf.noCompress ∧
    (mergeFromExternal (some (Except.ok tmp)) conf).1.projectID
      = (if tmp.projectID.valid then tmp.projectID else conf.projectID) ∧
    (mergeFromExternal (some (Except.ok tmp)) conf).1.name
      = (if tmp.name.valid then tmp.name else conf.name) ∧
    (mergeFromExternal (some (Except.ok tmp)) conf).1.token
      = (if tmp.token.valid then tmp.token else conf.token) ∧
    (getConsolidatedConfig (some (Except.ok jc)) (some (Except.ok ext))
        (Except.ok env) arg).1.token
      = (if env.token.valid then env.token
         else if ext.token.valid then ext.token
         else if jc.token.valid then jc.token
         else newConfig.token) ∧
    (arg ≠ "" →
      (getConsolidatedConfig (some (Except.ok jc)) (some (Except.ok ext))
          (Except.ok env) arg).1.name = nullStringFrom arg) := by
  refine ⟨rfl, rfl, rfl, rfl, rfl, rfl, rfl, rfl, rfl, rfl, rfl, rfl, rfl,
    rfl, rfl, rfl, rfl, rfl, rfl, rfl, rfl, rfl, rfl, ?_, ?_⟩
  · rw [getConsolidatedConfig_token_pipeline, Config.apply_token,
      mergeFromExternal_ok_token, Config.apply_token]
  · intro harg
    show (getConsolidatedConfigRest (newConfig.apply jc) (some (Except.ok ext))
        (Except.ok env) arg).1.name = nullStringFrom arg
    simp [getConsolidatedConfigRest, mergeFromExternal, harg]

/-- Witness for C9: with every decode succeeding on empty configs and the
CLI argument "cli", the consolidated `Name` is the CLI argument and `Token`
falls through to the (invalid) default. -/
theorem mergeFromExternal_frame_and_precedence_witness :
    ("cli" : String) ≠ "" ∧
    (getConsolidatedConfig (some (Except.ok emptyConfig))
        (some (Except.ok emptyConfig)) (Except.ok emptyConfig) "cli").1.name
      = nullStringFrom "cli" ∧
    (getConsolidatedConfig (some (Except.ok emptyConfig))
        (some (Except.ok emptyConfig)) (Except.ok emptyConfig) "cli").1.token
      = newConfig.token := by
  obtain ⟨-, -, -, -, -, -, -, -, -, -, -, -, -, -, -, -, -, -, -, -, -, -,
      -, htok, hname⟩ :=
    mergeFromExternal_frame_and_precedence emptyConfig emptyConfig emptyConfig
      emptyConfig emptyConfig "cli"
  refine ⟨by decide, hname (by decide), ?_⟩
  simpa [emptyConfig] using htok

/-- C10: `Config.Apply` copies `Name` only when it is valid *and* non-empty
and `ProjectID` only when it is valid *and* positive, so later sources with
merely-valid zero values cannot clobber earlier ones — whereas the
loadimpact override path (`MergeFromExternal`) copies these fields whenever
they are valid, empty or not. -/
theorem config_apply_zero_value_guards (c cfg tmp conf : Config) :
    ((c.apply cfg).name
      = if cfg.name.valid ∧ cfg.name.val ≠ "" then cfg.name else c.name) ∧
    ((c.apply cfg).projectID
      = if cfg.projectID.valid ∧ 0 < cfg.projectID.val then cfg.projectID
        else c.projectID) ∧
    (cfg.name.valid = true → cfg.name.val = "" → (c.apply cfg).name = c.name) ∧
    (cfg.projectID.valid = true → cfg.projectID.val ≤ 0 →
      (c.apply cfg).projectID = c.projectID) ∧
    (tmp.name.valid = true →
      (mergeFromExternal (some (Except.ok tmp)) conf).1.name = tmp.name) ∧
    (tmp.projectID.valid = true →
      (mergeFromExternal (some (Except.ok tmp)) conf).1.projectID
        = tmp.projectID) := by
  refine ⟨rfl, rfl, ?_, ?_, ?_, ?_⟩
  · intro hv he
    simp [Config.apply, he]
  · intro hv hle
    have : ¬(0 : Int) < cfg.projectID.val := not_lt.mpr hle
    simp [Config.apply, this]
  · intro hv
    simp [mergeFromExternal, hv]
  · intro hv
    simp [mergeFromExternal, hv]

/-- A config whose `Name` is valid but empty and whose `ProjectID` is valid
but zero, used to witness the `Apply` guards. -/
def zeroValuedConfig : Config :=
  { emptyConfig with name := ⟨"", true⟩, projectID := ⟨0, true⟩ }

/-- A config with an established `Name` and `ProjectID`, used as the
`Apply`/merge target in the witness. -/
def establishedConfig : Config :=
  { emptyConfig with name := ⟨"orig", true⟩, projectID := ⟨42, true⟩ }

/-- Witness for C10: a valid-but-empty `Name` and a valid-but-zero
`ProjectID` do not survive `Apply`, yet both clobber the target through
`MergeFromExternal`. -/
theorem config_apply_zero_value_guards_witness :
    zeroValuedConfig.name.valid = true ∧ zeroValuedConfig.name.val = "" ∧
    zeroValuedConfig.projectID.valid = true ∧ zeroValuedConfig.projectID.val ≤ 0 ∧
    (establishedConfig.apply zeroValuedConfig).name = establishedConfig.name ∧
    (establishedConfig.apply zeroValuedConfig).projectID
      = establishedConfig.projectID ∧
    (mergeFromExternal (some (Except.ok zeroValuedConfig)) establishedConfig).1.name
      = zeroValuedConfig.name ∧
    (mergeFromExternal (some (Except.ok zeroValuedConfig)) establishedConfig).1.projectID
      = zeroValuedConfig.projectID := by
  obtain ⟨-, -, h3, h4, h5, h6⟩ :=
    config_apply_zero_value_guards establishedConfig zeroValuedConfig
      zeroValuedConfig establishedConfig
  exact ⟨rfl, rfl, rfl, by decide, h3 rfl rfl, h4 rfl (by decide),
    h5 rfl, h6 rfl⟩

end K6
